import Mathlib

/-!
Shallow embedding of the execution-and-arbitration core of the depthflow-api
repository: the retry classifier and task executor (app/tasks/processing.py),
the GPU resource arbiter (app/services/gpu_resource_manager.py), the metrics
recorder (app/services/monitoring.py), the health supervisor
(app/services/health_monitor.py) and the cancel endpoint (app/api/routes.py).
-/

namespace DepthFlow

/-- Boolean substring test on char lists: `isSubLst n h` is true iff `n`
occurs contiguously inside `h`.  This models Python's `needle in haystack`. -/
def isSubLst : List Char → List Char → Bool
  | n, [] => n.isEmpty
  | n, c :: t => n.isPrefixOf (c :: t) || isSubLst n t

/-- Python `needle in haystack` on strings. -/
def containsSub (needle hay : String) : Bool :=
  isSubLst needle.toList hay.toList

/-- Python `str.lower()`, modelled character-wise (all keywords compared
against are ASCII or Chinese, on which this agrees with Python). -/
def lowerStr (s : String) : String := String.mk (s.toList.map Char.toLower)

/-- The non-retryable ("fatal") keywords of `should_retry_error`
(processing.py lines 27-34), verbatim from the source. -/
def non_retryable_errors : List String :=
  ["無效的圖片檔案", "檔案格式不支援", "檔案損壞",
   "parameter_validation_error", "invalid_file_format", "file_too_large"]

/-- The retryable keywords of `should_retry_error` (processing.py lines
42-51), verbatim from the source. -/
def retryable_errors : List String :=
  ["gpu", "memory", "timeout", "connection", "temporary",
   "資源不足", "服務器忙碌", "processing failed"]

/-- `should_retry_error` (processing.py lines 14-59): lowercase the message,
return `false` if any fatal keyword occurs in it, else `true` if any
retryable keyword occurs, else `true` by default. -/
def should_retry_error (msg : String) : Bool :=
  let error_str := lowerStr msg
  if non_retryable_errors.any (fun kw => containsSub kw error_str) then
    false
  else if retryable_errors.any (fun kw => containsSub kw error_str) then
    true
  else
    true

/-- The exponential-backoff delay of processing.py line 200:
`delay = min(60 * (2 ** (retry_count - 1)), 300)`. -/
def retry_delay (retry_count : Nat) : Nat :=
  min (60 * 2 ^ (retry_count - 1)) 300

/-! ## MonitoringService task statistics (app/services/monitoring.py)

We embed the `task_stats` dictionary of `MonitoringService` (lines 57-63)
and the effect of each recording operation on it.  The ring buffers,
counters and gauges the operations also touch do not influence
`task_stats` or `_calculate_system_health` and are projected away. -/

/-- The `task_stats` counters of `MonitoringService.__init__`
(monitoring.py lines 57-63); the floating-point running average is not
part of any claim and is omitted from the projection. -/
structure TaskStats where
  total_tasks : Nat
  completed_tasks : Nat
  failed_tasks : Nat
  retried_tasks : Nat
  deriving DecidableEq, Repr

/-- Initial statistics: every counter starts at 0 (monitoring.py 57-63). -/
def initStats : TaskStats := ⟨0, 0, 0, 0⟩

/-- Python truthiness of the optional `task_id` argument: `if task_id:`
is false for `None` and for the empty string. -/
def truthy : Option String → Bool
  | none => false
  | some s => !s.isEmpty

/-- Effect of `record_error` (monitoring.py lines 90-114) on `task_stats`:
`failed_tasks` is incremented exactly when `task_id` is truthy. -/
def record_error (s : TaskStats) (task_id : Option String) : TaskStats :=
  if truthy task_id then { s with failed_tasks := s.failed_tasks + 1 } else s

/-- Effect of `record_task_completed` (monitoring.py lines 134-147) on
`task_stats`: increments `completed_tasks`. -/
def record_task_completed (s : TaskStats) : TaskStats :=
  { s with completed_tasks := s.completed_tasks + 1 }

/-- Effect of `record_task_retry` (monitoring.py lines 149-156) on
`task_stats`: increments `retried_tasks`. -/
def record_task_retry (s : TaskStats) : TaskStats :=
  { s with retried_tasks := s.retried_tasks + 1 }

/-- Effect of `record_metric` (monitoring.py lines 68-88) on `task_stats`:
it appends to the metrics history and updates counters/gauges but never
touches `task_stats`. -/
def record_metric (s : TaskStats) : TaskStats := s

/-- `MonitoringService._calculate_system_health` (monitoring.py lines
187-203).  Python's float division and comparisons are modelled exactly
in `ℚ` (the thresholds 0.5 and 0.2 and the small ratios of interest are
exact). -/
def calculate_system_health (s : TaskStats) : String :=
  let total_tasks := s.total_tasks
  let failed_tasks := s.failed_tasks
  if total_tasks = 0 then "unknown"
  else
    let failure_rate : ℚ := (failed_tasks : ℚ) / (total_tasks : ℚ)
    if failure_rate > 0.5 then "critical"
    else if failure_rate > 0.2 then "warning"
    else "healthy"

/-- States of `MonitoringService.task_stats` reachable from start-up by any
sequence of the recording operations. -/
inductive StatsReach : TaskStats → Prop
  | init : StatsReach initStats
  | completed {s} : StatsReach s → StatsReach (record_task_completed s)
  | retry {s} : StatsReach s → StatsReach (record_task_retry s)
  | error {s} (task_id : Option String) :
      StatsReach s → StatsReach (record_error s task_id)
  | metric {s} : StatsReach s → StatsReach (record_metric s)

/-! ## Task executor (app/tasks/processing.py, process_image_task)

One run of the executor is driven by a script of renderer outcomes, one
per attempt: `process_image_task` sets the record to processing, runs the
attempt, and on a retryable failure below the retry cap updates the
record, records the retry, computes the backoff delay and re-invokes
itself on the remaining script. -/

/-- Task status values stored in `task['status']`. -/
inductive TaskStatus
  | pending
  | processing
  | completed
  | failed
  | cancelled
  deriving DecidableEq, Repr

/-- The fields of a task record that the executor's control flow reads or
writes.  `retryHistory` entries are (attempt, error-string) pairs; the
source also stores a timestamp, which no claim mentions. -/
structure TaskRec where
  status : TaskStatus
  retryCount : Nat
  maxRetries : Nat
  retryHistory : List (Nat × String)
  errorMessage : Option String
  progress : Nat
  deriving DecidableEq, Repr

/-- The outcome of one attempt: the renderer pipeline either succeeds or
raises an error with the given message. -/
inductive AttemptOutcome
  | success
  | failure (msg : String)
  deriving DecidableEq, Repr

/-- What one call of `process_image_task` (and its recursive
resubmissions) produced: the final record and statistics, the backoff
delays computed before each resubmission in chronological order, how many
times the executor set the status to failed, and how many attempts it
consumed from the script. -/
structure RunResult where
  task : TaskRec
  stats : TaskStats
  delays : List Nat
  failedSets : Nat
  attempts : Nat
  deriving DecidableEq, Repr

/-- `process_image_task` (processing.py lines 63-224) run on a script of
attempt outcomes.  Per attempt: set status processing (line 98); on
success set completed/progress 100 and record completion (135-155); on an
exception record the error (169), and either retry — increment
`retry_count`, set pending, append to `retry_history`, record the retry,
compute the delay, recurse (179-212) — or mark failed with the error
message (213-224). -/
def process_image_task (task_id : String) (t : TaskRec) (st : TaskStats) :
    List AttemptOutcome → RunResult
  | [] => ⟨t, st, [], 0, 0⟩
  | o :: rest =>
    let t1 := { t with status := TaskStatus.processing }
    match o with
    | AttemptOutcome.success =>
        let t2 := { t1 with status := TaskStatus.completed, progress := 100 }
        ⟨t2, record_task_completed st, [], 0, 1⟩
    | AttemptOutcome.failure e =>
        let st1 := record_error st (some task_id)
        if t1.retryCount < t1.maxRetries ∧ should_retry_error e = true then
          let rc := t1.retryCount + 1
          let t2 := { t1 with
            retryCount := rc
            status := TaskStatus.pending
            retryHistory := t1.retryHistory ++ [(rc, e)] }
          let st2 := record_task_retry st1
          let d := retry_delay rc
          let r := process_image_task task_id t2 st2 rest
          ⟨r.task, r.stats, d :: r.delays, r.failedSets, r.attempts + 1⟩
        else
          let t2 := { t1 with
            status := TaskStatus.failed
            errorMessage := some e }
          ⟨t2, record_metric st1, [], 1, 1⟩

/-- A freshly created task record: status pending, no retries yet,
`max_retries` defaulting to 3 (processing.py line 177). -/
def freshTask : TaskRec :=
  ⟨TaskStatus.pending, 0, 3, [], none, 0⟩

/-! ## GPUResourceManager (app/services/gpu_resource_manager.py)

`can_process_task` runs entirely under the mutex, and so does the
increment in `acquire_gpu_slot`, but the two are separate critical
sections: between a task's admission check and its increment other
coroutines may run.  The transition system below has one transition per
critical section, which is exactly the atomicity the source provides. -/

/-- `can_process_task` (gpu_resource_manager.py lines 119-151): admission
is denied when `active_tasks >= max_concurrent_tasks`, when the GPU is
unavailable, or when its memory headroom is below the threshold; the two
probe outcomes are modelled as booleans supplied by the environment. -/
def can_process_task (active cap : Nat) (gpu_ok memory_ok : Bool) : Bool :=
  if active ≥ cap then false
  else if !gpu_ok then false
  else if !memory_ok then false
  else true

/-- Where one client of `acquire_gpu_slot` stands: before its admission
check, between the check and the increment, holding the slot, or done
(released or rejected). -/
inductive LeasePC
  | start
  | passed
  | holding
  | done
  deriving DecidableEq, Repr

/-- Shared state of the arbiter plus the program counter of each client
coroutine. -/
structure ArbConfig where
  active : Nat
  clients : List LeasePC
  deriving DecidableEq, Repr

/-- One critical section of `acquire_gpu_slot` (gpu_resource_manager.py
lines 153-174), for the client at position `i`; the GPU probe is assumed
healthy (available, memory under threshold), which is one possible
environment.  `check_pass`/`check_fail` are the `can_process_task` call
(one lock acquisition, lines 119-151), `incr` is the increment block
(second lock acquisition, lines 163-165), `release` is the `finally`
block (lines 171-174). -/
inductive ArbStep (cap : Nat) : ArbConfig → ArbConfig → Prop
  | check_pass (c : ArbConfig) (i : Nat) :
      c.clients.get? i = some LeasePC.start →
      can_process_task c.active cap true true = true →
      ArbStep cap c ⟨c.active, c.clients.set i LeasePC.passed⟩
  | check_fail (c : ArbConfig) (i : Nat) :
      c.clients.get? i = some LeasePC.start →
      can_process_task c.active cap true true = false →
      ArbStep cap c ⟨c.active, c.clients.set i LeasePC.done⟩
  | incr (c : ArbConfig) (i : Nat) :
      c.clients.get? i = some LeasePC.passed →
      ArbStep cap c ⟨c.active + 1, c.clients.set i LeasePC.holding⟩
  | release (c : ArbConfig) (i : Nat) :
      c.clients.get? i = some LeasePC.holding →
      ArbStep cap c ⟨c.active - 1, c.clients.set i LeasePC.done⟩

/-- Configurations reachable from `init` by interleaved acquire/release
steps. -/
inductive ArbReach (cap : Nat) (init : ArbConfig) : ArbConfig → Prop
  | refl : ArbReach cap init init
  | step {b c : ArbConfig} :
      ArbReach cap init b → ArbStep cap b c → ArbReach cap init c

/-- Ledger of one sequential run of the `acquire_gpu_slot` context
manager by a single client: final counter value, how many increments and
decrements it performed, and whether it raised to its caller. -/
structure GuardTrace where
  finalActive : Nat
  increments : Nat
  decrements : Nat
  raised : Bool
  deriving DecidableEq, Repr

/-- One full `async with acquire_gpu_slot(...)` execution
(gpu_resource_manager.py lines 153-174) with no interference: if the
admission check fails it raises RuntimeError before touching the counter;
otherwise it increments, runs the non-raising cache cleanup, runs the
body (which may raise), and the `finally` block decrements exactly once. -/
def acquire_gpu_slot_run (active cap : Nat) (gpu_ok memory_ok : Bool)
    (body_raises : Bool) : GuardTrace :=
  if can_process_task active cap gpu_ok memory_ok = false then
    ⟨active, 0, 0, true⟩
  else
    ⟨active + 1 - 1, 1, 1, body_raises⟩

/-! ## Cancellation vs. the executor (routes.py cancel_task, processing.py)

The status of one task under the interleaving of its executor run with
the external cancel endpoint.  The executor writes `task['status']`
without ever re-reading it, so its writes are unconditional; the cancel
endpoint refuses to touch a task whose status is completed, failed or
cancelled (routes.py lines 324-332). -/

/-- Where the executor stands for the task: not yet started (or waiting
to be resubmitted), awaiting the renderer, or returned. -/
inductive ExecPC
  | notStarted
  | midFlight
  | finished
  deriving DecidableEq, Repr

/-- Interleaved steps of `process_image_task` and `cancel_task` on one
task's record, `(status, executor position)`.
`begin`: the executor sets processing unconditionally (processing.py line
98).  `finish_success` / `finish_failure`: it sets completed (line 137)
or failed (line 215) unconditionally when the renderer returns.
`finish_retry`: the retry path sets pending and resubmits (lines
179-212).  `cancel`: the endpoint sets cancelled unless the status is
already completed, failed or cancelled (routes.py lines 313-337). -/
inductive CancelStep : TaskStatus × ExecPC → TaskStatus × ExecPC → Prop
  | begin (s : TaskStatus) :
      CancelStep (s, ExecPC.notStarted) (TaskStatus.processing, ExecPC.midFlight)
  | finish_success (s : TaskStatus) :
      CancelStep (s, ExecPC.midFlight) (TaskStatus.completed, ExecPC.finished)
  | finish_failure (s : TaskStatus) :
      CancelStep (s, ExecPC.midFlight) (TaskStatus.failed, ExecPC.finished)
  | finish_retry (s : TaskStatus) :
      CancelStep (s, ExecPC.midFlight) (TaskStatus.pending, ExecPC.notStarted)
  | cancel (s : TaskStatus) (pc : ExecPC) :
      s ≠ TaskStatus.completed → s ≠ TaskStatus.failed →
      s ≠ TaskStatus.cancelled →
      CancelStep (s, pc) (TaskStatus.cancelled, pc)

/-- Configurations reachable from a freshly submitted task (status
pending, executor not yet started). -/
inductive CancelReach : TaskStatus × ExecPC → Prop
  | init : CancelReach (TaskStatus.pending, ExecPC.notStarted)
  | step {b c : TaskStatus × ExecPC} :
      CancelReach b → CancelStep b c → CancelReach c

/-! ## HealthMonitor (app/services/health_monitor.py) -/

/-- `critical_keywords` of `_determine_overall_status`
(health_monitor.py line 177). -/
def critical_keywords : List String := ["不可用", "不足", "過高"]

/-- `warning_keywords` of `_determine_overall_status`
(health_monitor.py line 178). -/
def warning_keywords : List String := ["警告", "注意"]

/-- `_determine_overall_status` (health_monitor.py lines 175-195):
critical if any issue contains a critical keyword, else warning if any
issue contains a warning keyword or the issue list is non-empty (Python
truthiness of the list), else healthy. -/
def determine_overall_status (issues : List String) : String :=
  let has_critical :=
    issues.any (fun issue => critical_keywords.any (fun kw => containsSub kw issue))
  let has_warning :=
    issues.any (fun issue => warning_keywords.any (fun kw => containsSub kw issue))
  if has_critical then "critical"
  else if has_warning || !issues.isEmpty then "warning"
  else "healthy"

/-- `_check_resource_issues` (health_monitor.py lines 126-142).  The
f-strings render the measured numbers; the rendered digits are passed in
as opaque strings (`cpuS`, `memS`, `diskS`) since only the surrounding
literal text matters to any claim. -/
def check_resource_issues (cpu_percent memory_percent : ℚ)
    (disk_used disk_total : ℚ) (cpuS memS diskS : String) : List String :=
  (if cpu_percent > 90 then ["CPU 使用率過高: " ++ cpuS ++ "%"] else []) ++
  (if memory_percent > 85 then ["記憶體使用率過高: " ++ memS ++ "%"] else []) ++
  (if disk_used / disk_total * 100 > 90 then
    ["磁碟空間不足: " ++ diskS ++ "%"] else [])

/-- `_check_gpu_issues` (health_monitor.py lines 144-161): if the GPU is
unavailable that single issue is reported and the function returns;
otherwise memory above 90% and temperature above 85°C each add an issue
(a temperature of `None` — and, by Python truthiness, 0.0 — adds none). -/
def check_gpu_issues (available : Bool) (memory_percent : ℚ)
    (temperature : Option ℚ) (gmemS gtempS : String) : List String :=
  if !available then ["GPU 不可用"]
  else
    (if memory_percent > 90 then
      ["GPU 記憶體使用率過高: " ++ gmemS ++ "%"] else []) ++
    (match temperature with
     | none => []
     | some t => if t > 85 then ["GPU 溫度過高: " ++ gtempS ++ "°C"] else [])

/-- The issue list assembled by `_perform_health_check` (health_monitor.py
lines 108-111): resource issues, then GPU issues; `_check_task_issues`
(lines 163-173) is a stub that appends nothing. -/
def perform_health_check_issues (cpu_percent memory_percent : ℚ)
    (disk_used disk_total : ℚ) (available : Bool) (gpu_memory_percent : ℚ)
    (temperature : Option ℚ) (cpuS memS diskS gmemS gtempS : String) :
    List String :=
  check_resource_issues cpu_percent memory_percent disk_used disk_total
    cpuS memS diskS ++
  check_gpu_issues available gpu_memory_percent temperature gmemS gtempS

/-! ## Helper lemmas -/

lemma isSubLst_nil_left (b : List Char) : isSubLst [] b = true := by
  cases b <;> simp [isSubLst]

lemma isSubLst_append (n a b : List Char) (h : isSubLst n a = true) :
    isSubLst n (a ++ b) = true := by
  induction a with
  | nil =>
      simp [isSubLst] at h
      subst h
      simp [isSubLst_nil_left b]
  | cons c t ih =>
      rw [List.cons_append, isSubLst, Bool.or_eq_true]
      rw [isSubLst, Bool.or_eq_true] at h
      rcases h with h | h
      · left
        rw [List.isPrefixOf_iff_prefix] at *
        exact h.trans (by simp)
      · right
        exact ih h

lemma containsSub_append (kw a b : String) (h : containsSub kw a = true) :
    containsSub kw (a ++ b) = true := by
  unfold containsSub at *
  have hab : (a ++ b).toList = a.toList ++ b.toList := by simp [String.toList]
  rw [hab]
  exact isSubLst_append _ _ _ h

/-! ## Claim theorems -/

/-- Claim C4: `should_retry_error` is pure (it is a function), returns the
Fatal verdict (`false`) exactly when the lowercased message contains one
of the six non-retryable keywords, and on every other message — whether
or not a retryable keyword occurs — returns the Retryable verdict
(`true`), which is the complement of the fatal test. -/
theorem should_retry_error_characterization (m : String) :
    (should_retry_error m = false ↔
      non_retryable_errors.any (fun kw => containsSub kw (lowerStr m)) = true) ∧
    should_retry_error m
      = !(non_retryable_errors.any (fun kw => containsSub kw (lowerStr m))) := by
  unfold should_retry_error
  cases h : non_retryable_errors.any (fun kw => containsSub kw (lowerStr m)) <;>
    cases h2 : retryable_errors.any (fun kw => containsSub kw (lowerStr m)) <;>
      simp [h, h2]

/-- Claim C5: the backoff delay before resubmission `n` is
`min (60 * 2 ^ (n - 1)) 300`, and for five consecutive retries of one
task (a task with `max_retries = 5` whose attempts keep failing
retryably) the executor computes exactly the delays
`[60, 120, 240, 300, 300]`. -/
theorem backoff_sequence (e1 e2 e3 e4 e5 e6 : String)
    (h1 : should_retry_error e1 = true) (h2 : should_retry_error e2 = true)
    (h3 : should_retry_error e3 = true) (h4 : should_retry_error e4 = true)
    (h5 : should_retry_error e5 = true) :
    (process_image_task "task-1" ⟨TaskStatus.pending, 0, 5, [], none, 0⟩
        initStats
        [AttemptOutcome.failure e1, AttemptOutcome.failure e2,
         AttemptOutcome.failure e3, AttemptOutcome.failure e4,
         AttemptOutcome.failure e5, AttemptOutcome.failure e6]).delays
      = [retry_delay 1, retry_delay 2, retry_delay 3, retry_delay 4,
         retry_delay 5] ∧
    [retry_delay 1, retry_delay 2, retry_delay 3, retry_delay 4,
     retry_delay 5] = [60, 120, 240, 300, 300] := by
  constructor
  · simp [process_image_task, h1, h2, h3, h4, h5]
  · decide

/-- Witness for C5 at concrete retryable messages. -/
theorem backoff_sequence_witness :
    (process_image_task "task-1" ⟨TaskStatus.pending, 0, 5, [], none, 0⟩
        initStats
        [AttemptOutcome.failure "gpu oom", AttemptOutcome.failure "timeout",
         AttemptOutcome.failure "connection reset",
         AttemptOutcome.failure "temporary glitch",
         AttemptOutcome.failure "memory error",
         AttemptOutcome.failure "gpu oom"]).delays
      = [retry_delay 1, retry_delay 2, retry_delay 3, retry_delay 4,
         retry_delay 5] :=
  (backoff_sequence "gpu oom" "timeout" "connection reset"
    "temporary glitch" "memory error" "gpu oom"
    (by decide) (by decide) (by decide) (by decide) (by decide)).1

/-- Claim C3: with `max_retries = 3` and four consecutive retryable
failures the executor marks the task failed exactly once (after the
fourth failure), leaves a `retry_history` of exactly the three retry
entries, stores the last error as `error_message`, and consumes exactly
four attempts no matter what the script holds afterwards (it is never
resubmitted again). -/
theorem retries_exhausted_marks_failed_once (e1 e2 e3 e4 : String)
    (rest : List AttemptOutcome)
    (h1 : should_retry_error e1 = true) (h2 : should_retry_error e2 = true)
    (h3 : should_retry_error e3 = true) (h4 : should_retry_error e4 = true) :
    (process_image_task "task-1" freshTask initStats
        (AttemptOutcome.failure e1 :: AttemptOutcome.failure e2 ::
         AttemptOutcome.failure e3 :: AttemptOutcome.failure e4 :: rest)).task.status
        = TaskStatus.failed ∧
    (process_image_task "task-1" freshTask initStats
        (AttemptOutcome.failure e1 :: AttemptOutcome.failure e2 ::
         AttemptOutcome.failure e3 :: AttemptOutcome.failure e4 :: rest)).task.retryHistory
        = [(1, e1), (2, e2), (3, e3)] ∧
    (process_image_task "task-1" freshTask initStats
        (AttemptOutcome.failure e1 :: AttemptOutcome.failure e2 ::
         AttemptOutcome.failure e3 :: AttemptOutcome.failure e4 :: rest)).task.errorMessage
        = some e4 ∧
    (process_image_task "task-1" freshTask initStats
        (AttemptOutcome.failure e1 :: AttemptOutcome.failure e2 ::
         AttemptOutcome.failure e3 :: AttemptOutcome.failure e4 :: rest)).failedSets
        = 1 ∧
    (process_image_task "task-1" freshTask initStats
        (AttemptOutcome.failure e1 :: AttemptOutcome.failure e2 ::
         AttemptOutcome.failure e3 :: AttemptOutcome.failure e4 :: rest)).attempts
        = 4 := by
  simp [process_image_task, freshTask, h1, h2, h3, h4]

/-- Witness for C3 at concrete retryable messages. -/
theorem retries_exhausted_marks_failed_once_witness :
    (process_image_task "task-1" freshTask initStats
        (AttemptOutcome.failure "gpu oom" :: AttemptOutcome.failure "timeout" ::
         AttemptOutcome.failure "connection reset" ::
         AttemptOutcome.failure "memory error" :: [])).task.status
        = TaskStatus.failed :=
  (retries_exhausted_marks_failed_once "gpu oom" "timeout"
    "connection reset" "memory error" []
    (by decide) (by decide) (by decide) (by decide)).1

/-- Claim C1 (refuted — the code races): with capacity 1 and two clients,
the interleaving check-1, check-2, increment-1, increment-2 is a run of
the source's `acquire_gpu_slot` (each step is one of its lock-protected
critical sections) and drives `active_tasks` to 2, strictly above the
capacity: the admission check and the increment sit in separate critical
sections, so the bound `active_tasks ≤ max_concurrent_tasks` is not
maintained under concurrent acquires. -/
theorem admission_race_exceeds_capacity :
    ArbReach 1 ⟨0, [LeasePC.start, LeasePC.start]⟩
      ⟨2, [LeasePC.holding, LeasePC.holding]⟩ ∧ 2 > 1 := by
  refine ⟨?_, by decide⟩
  have s1 : ArbStep 1 ⟨0, [LeasePC.start, LeasePC.start]⟩
      ⟨0, [LeasePC.passed, LeasePC.start]⟩ :=
    ArbStep.check_pass ⟨0, [LeasePC.start, LeasePC.start]⟩ 0 rfl (by decide)
  have s2 : ArbStep 1 ⟨0, [LeasePC.passed, LeasePC.start]⟩
      ⟨0, [LeasePC.passed, LeasePC.passed]⟩ :=
    ArbStep.check_pass ⟨0, [LeasePC.passed, LeasePC.start]⟩ 1 rfl (by decide)
  have s3 : ArbStep 1 ⟨0, [LeasePC.passed, LeasePC.passed]⟩
      ⟨1, [LeasePC.holding, LeasePC.passed]⟩ :=
    ArbStep.incr ⟨0, [LeasePC.passed, LeasePC.passed]⟩ 0 rfl
  have s4 : ArbStep 1 ⟨1, [LeasePC.holding, LeasePC.passed]⟩
      ⟨2, [LeasePC.holding, LeasePC.holding]⟩ :=
    ArbStep.incr ⟨1, [LeasePC.holding, LeasePC.passed]⟩ 1 rfl
  exact ArbReach.step (ArbReach.step (ArbReach.step
    (ArbReach.step ArbReach.refl s1) s2) s3) s4

/-- Claim C2 (refuted — the executor overwrites a cancelled task): from a
fresh task, the run begin-processing, external cancel, renderer success
is a legal interleaving of `process_image_task` with the `cancel_task`
endpoint; it reaches status cancelled with the renderer in flight, after
which the executor's unconditional success write changes the status to
completed — a Cancelled record is not terminal for the executor. -/
theorem cancelled_task_overwritten_to_completed :
    CancelReach (TaskStatus.cancelled, ExecPC.midFlight) ∧
    CancelStep (TaskStatus.cancelled, ExecPC.midFlight)
      (TaskStatus.completed, ExecPC.finished) ∧
    CancelReach (TaskStatus.completed, ExecPC.finished) := by
  have h1 : CancelReach (TaskStatus.processing, ExecPC.midFlight) :=
    CancelReach.step CancelReach.init (CancelStep.begin TaskStatus.pending)
  have h2 : CancelReach (TaskStatus.cancelled, ExecPC.midFlight) :=
    CancelReach.step h1
      (CancelStep.cancel TaskStatus.processing ExecPC.midFlight
        (by simp) (by simp) (by simp))
  have h3 : CancelStep (TaskStatus.cancelled, ExecPC.midFlight)
      (TaskStatus.completed, ExecPC.finished) :=
    CancelStep.finish_success TaskStatus.cancelled
  exact ⟨h2, h3, CancelReach.step h2 h3⟩

/-- Claim C6: a successful `acquire_gpu_slot` performs exactly one
increment and exactly one decrement — the `finally` fires whether or not
the guarded body raises — restoring the counter to its entry value; a
rejected acquire raises before the increment and performs neither an
increment nor a decrement. -/
theorem acquire_release_balanced (active cap : Nat) (g m b : Bool) :
    (can_process_task active cap g m = true →
      acquire_gpu_slot_run active cap g m b
        = ⟨active, 1, 1, b⟩) ∧
    (can_process_task active cap g m = false →
      (acquire_gpu_slot_run active cap g m b).increments = 0 ∧
      (acquire_gpu_slot_run active cap g m b).decrements = 0 ∧
      (acquire_gpu_slot_run active cap g m b).finalActive = active ∧
      (acquire_gpu_slot_run active cap g m b).raised = true) := by
  constructor
  · intro h
    simp [acquire_gpu_slot_run, h]
  · intro h
    simp [acquire_gpu_slot_run, h]

/-- Witness for C6: an admitted acquire with a raising body (capacity 3,
no other lease) is balanced, and a rejected acquire at full capacity
touches nothing. -/
theorem acquire_release_balanced_witness :
    (can_process_task 0 3 true true = true ∧
      acquire_gpu_slot_run 0 3 true true true = ⟨0, 1, 1, true⟩) ∧
    (can_process_task 3 3 true true = false ∧
      (acquire_gpu_slot_run 3 3 true true false).increments = 0 ∧
      (acquire_gpu_slot_run 3 3 true true false).decrements = 0) :=
  ⟨⟨by decide, (acquire_release_balanced 0 3 true true true).1 (by decide)⟩,
   ⟨by decide,
    ((acquire_release_balanced 3 3 true true false).2 (by decide)).1,
    ((acquire_release_balanced 3 3 true true false).2 (by decide)).2.1⟩⟩

/-- Claim C7 counterexample: the code uses strict comparisons
(`failure_rate > 0.5`, `failure_rate > 0.2`), so a failure ratio of
exactly 0.2 (1 failure in 5 tasks) yields "healthy", not "warning" as
the claim's boundary reading requires, and a ratio of exactly 0.5
(1 in 2) yields "warning", not "critical". -/
theorem system_health_boundary_counterexample :
    ((1 : ℚ) / 5 ≥ 0.2 ∧
      calculate_system_health ⟨5, 0, 1, 0⟩ = "healthy" ∧
      calculate_system_health ⟨5, 0, 1, 0⟩ ≠ "warning") ∧
    ((1 : ℚ) / 2 ≥ 0.5 ∧
      calculate_system_health ⟨2, 0, 1, 0⟩ = "warning" ∧
      calculate_system_health ⟨2, 0, 1, 0⟩ ≠ "critical") := by
  refine ⟨⟨by norm_num, ?_, ?_⟩, ⟨by norm_num, ?_, ?_⟩⟩ <;>
    simp only [calculate_system_health] <;> norm_num <;> decide

/-- Claim C7 (amended): `summary()`'s derived health tag is "unknown"
when the task total is zero; otherwise it is "critical" exactly when the
failure ratio is strictly above 0.5, "warning" when it is strictly above
0.2 but at most 0.5, and "healthy" when it is at most 0.2 — both
boundary ratios fall into the milder class. -/
theorem system_health_thresholds (s : TaskStats) :
    (s.total_tasks = 0 → calculate_system_health s = "unknown") ∧
    (0 < s.total_tasks →
      ((s.failed_tasks : ℚ) / (s.total_tasks : ℚ) > 0.5 →
        calculate_system_health s = "critical") ∧
      ((s.failed_tasks : ℚ) / (s.total_tasks : ℚ) ≤ 0.5 →
        (s.failed_tasks : ℚ) / (s.total_tasks : ℚ) > 0.2 →
        calculate_system_health s = "warning") ∧
      ((s.failed_tasks : ℚ) / (s.total_tasks : ℚ) ≤ 0.2 →
        calculate_system_health s = "healthy")) := by
  constructor
  · intro h
    simp [calculate_system_health, h]
  · intro hpos
    have h0 : ¬ s.total_tasks = 0 := Nat.pos_iff_ne_zero.mp hpos
    refine ⟨?_, ?_, ?_⟩
    · intro h
      simp only [calculate_system_health]
      rw [if_neg h0, if_pos h]
    · intro hle hgt
      simp only [calculate_system_health]
      rw [if_neg h0, if_neg (not_lt.mpr hle), if_pos hgt]
    · intro hle
      simp only [calculate_system_health]
      rw [if_neg h0, if_neg (not_lt.mpr (hle.trans (by norm_num))),
        if_neg (not_lt.mpr hle)]

/-- Witness for C7's amended claim at the boundary ratio 1/2. -/
theorem system_health_thresholds_witness :
    calculate_system_health ⟨2, 0, 1, 0⟩ = "warning" :=
  ((system_health_thresholds ⟨2, 0, 1, 0⟩).2 (by norm_num)).2.1
    (by norm_num) (by norm_num)

/-- Claim C8: no recording operation of `MonitoringService` ever touches
`task_stats["total_tasks"]`: in every reachable statistics state it is
still 0, so `_calculate_system_health` — and hence the health tag in
`get_metrics_summary` — is always "unknown". -/
theorem total_tasks_stays_zero (s : TaskStats) (h : StatsReach s) :
    s.total_tasks = 0 ∧ calculate_system_health s = "unknown" := by
  have ht : s.total_tasks = 0 := by
    induction h with
    | init => rfl
    | completed _ ih => simpa [record_task_completed] using ih
    | retry _ ih => simpa [record_task_retry] using ih
    | error tid _ ih =>
        cases htr : truthy tid <;> simp [record_error, htr, ih]
    | metric _ ih => simpa [record_metric] using ih
  exact ⟨ht, by simp [calculate_system_health, ht]⟩

/-- Witness for C8: after a completion, a retry and a task-tagged error,
the total is still 0 and the health tag is "unknown". -/
theorem total_tasks_stays_zero_witness :
    (record_error (record_task_retry (record_task_completed initStats))
        (some "task-1")).total_tasks = 0 ∧
    calculate_system_health
        (record_error (record_task_retry (record_task_completed initStats))
          (some "task-1")) = "unknown" :=
  total_tasks_stays_zero _
    (StatsReach.error (some "task-1")
      (StatsReach.retry (StatsReach.completed StatsReach.init)))

lemma eq_of_mem_ite_singleton {p : Prop} [Decidable p] {x a : String}
    (h : x ∈ (if p then [a] else [])) : x = a := by
  by_cases hp : p
  · rw [if_pos hp] at h
    simpa using h
  · rw [if_neg hp] at h
    simp at h

lemma anyCrit_of_third {x : String} (h : containsSub "過高" x = true) :
    critical_keywords.any (fun kw => containsSub kw x) = true := by
  simp [critical_keywords, h]

lemma anyCrit_of_second {x : String} (h : containsSub "不足" x = true) :
    critical_keywords.any (fun kw => containsSub kw x) = true := by
  simp [critical_keywords, h]

lemma anyCrit_of_first {x : String} (h : containsSub "不可用" x = true) :
    critical_keywords.any (fun kw => containsSub kw x) = true := by
  simp [critical_keywords, h]

/-- Every issue string that a health-check cycle can generate contains a
critical keyword (`不可用`, `不足` or `過高`). -/
lemma health_check_issues_all_critical (cpu mem du dt : ℚ) (avail : Bool)
    (gmem : ℚ) (temp : Option ℚ) (cpuS memS diskS gmemS gtempS : String) :
    ∀ issue ∈ perform_health_check_issues cpu mem du dt avail gmem temp
        cpuS memS diskS gmemS gtempS,
      critical_keywords.any (fun kw => containsSub kw issue) = true := by
  intro issue h
  unfold perform_health_check_issues check_resource_issues check_gpu_issues at h
  rcases List.mem_append.mp h with h | h
  · rcases List.mem_append.mp h with h | h
    · rcases List.mem_append.mp h with h | h
      · rw [eq_of_mem_ite_singleton h]
        exact anyCrit_of_third
          (containsSub_append _ _ _ (containsSub_append _ _ _ (by decide)))
      · rw [eq_of_mem_ite_singleton h]
        exact anyCrit_of_third
          (containsSub_append _ _ _ (containsSub_append _ _ _ (by decide)))
    · rw [eq_of_mem_ite_singleton h]
      exact anyCrit_of_second
        (containsSub_append _ _ _ (containsSub_append _ _ _ (by decide)))
  · cases avail with
    | false =>
        simp only [Bool.not_false, if_pos] at h
        have : issue = "GPU 不可用" := by simpa using h
        rw [this]
        exact anyCrit_of_first (by decide)
    | true =>
        simp only [Bool.not_true] at h
        rw [if_neg (by simp)] at h
        rcases List.mem_append.mp h with h | h
        · rw [eq_of_mem_ite_singleton h]
          exact anyCrit_of_third
            (containsSub_append _ _ _ (containsSub_append _ _ _ (by decide)))
        · cases temp with
          | none => simp at h
          | some t =>
              rw [eq_of_mem_ite_singleton h]
              exact anyCrit_of_third
                (containsSub_append _ _ _ (containsSub_append _ _ _ (by decide)))

/-- If every issue carries a critical keyword, `_determine_overall_status`
returns "healthy" on an empty list and "critical" otherwise. -/
lemma determine_all_critical (issues : List String)
    (h : ∀ i ∈ issues, critical_keywords.any (fun kw => containsSub kw i) = true) :
    determine_overall_status issues
      = if issues.isEmpty then "healthy" else "critical" := by
  cases issues with
  | nil => rfl
  | cons a t =>
      have ha := h a (List.mem_cons_self a t)
      simp [determine_overall_status, ha]

/-- Claim C9: every issue a monitoring cycle can raise contains one of
the critical keywords of `_determine_overall_status`, so the snapshot's
severity is "critical" whenever the issue list is non-empty and
"healthy" otherwise; the "warning" severity is never produced. -/
theorem health_check_never_warning (cpu mem du dt : ℚ) (avail : Bool)
    (gmem : ℚ) (temp : Option ℚ) (cpuS memS diskS gmemS gtempS : String) :
    determine_overall_status (perform_health_check_issues cpu mem du dt
        avail gmem temp cpuS memS diskS gmemS gtempS)
      = (if (perform_health_check_issues cpu mem du dt avail gmem temp
            cpuS memS diskS gmemS gtempS).isEmpty
         then "healthy" else "critical") ∧
    determine_overall_status (perform_health_check_issues cpu mem du dt
        avail gmem temp cpuS memS diskS gmemS gtempS) ≠ "warning" := by
  have h := determine_all_critical _
    (health_check_issues_all_critical cpu mem du dt avail gmem temp
      cpuS memS diskS gmemS gtempS)
  refine ⟨h, ?_⟩
  rw [h]
  split <;> decide

/-- Witness for C9 at a concrete degraded reading (CPU 95%, GPU memory
95%, GPU 90°C): the severity is not "warning". -/
theorem health_check_never_warning_witness :
    determine_overall_status (perform_health_check_issues 95 50 1 2 true 95
        (some 90) "95.0" "50.0" "50.0" "95.0" "90.0") ≠ "warning" :=
  (health_check_never_warning 95 50 1 2 true 95 (some 90)
    "95.0" "50.0" "50.0" "95.0" "90.0").2

/-- A run whose first `es.length` attempts fail retryably and whose next
attempt succeeds, all within the retry budget: the task ends completed,
`failed_tasks` grows by one per failure and `completed_tasks` by one. -/
lemma run_retries_then_success (tid : String) (htid : tid.isEmpty = false)
    (es : List String) :
    ∀ (t : TaskRec) (st : TaskStats) (rest : List AttemptOutcome),
      t.retryCount + es.length ≤ t.maxRetries →
      (∀ e ∈ es, should_retry_error e = true) →
      (process_image_task tid t st
          (es.map AttemptOutcome.failure ++ AttemptOutcome.success :: rest)).task.status
          = TaskStatus.completed ∧
      (process_image_task tid t st
          (es.map AttemptOutcome.failure ++ AttemptOutcome.success :: rest)).stats.failed_tasks
          = st.failed_tasks + es.length ∧
      (process_image_task tid t st
          (es.map AttemptOutcome.failure ++ AttemptOutcome.success :: rest)).stats.completed_tasks
          = st.completed_tasks + 1 := by
  induction es with
  | nil =>
      intro t st rest _ _
      simp [process_image_task, record_task_completed]
  | cons e es ih =>
      intro t st rest hlen hall
      have he : should_retry_error e = true := hall e (by simp)
      have hlt : t.retryCount < t.maxRetries := by
        simp only [List.length_cons] at hlen
        omega
      have hst : truthy (some tid) = true := by simp [truthy, htid]
      obtain ⟨ih1, ih2, ih3⟩ :=
        ih { t with
              status := TaskStatus.pending
              retryCount := t.retryCount + 1
              retryHistory := t.retryHistory ++ [(t.retryCount + 1, e)] }
          (record_task_retry (record_error st (some tid))) rest
          (by simp only [List.length_cons] at hlen; dsimp only; omega)
          (fun e' he' => hall e' (List.mem_cons_of_mem e he'))
      simp only [record_task_retry, record_error, hst, if_true] at ih1 ih2 ih3
      refine ⟨?_, ?_, ?_⟩ <;>
        (simp only [List.map_cons, List.cons_append, process_image_task]
         rw [if_pos ⟨hlt, he⟩]
         simp [ih1, ih2, ih3, record_task_retry, record_error, hst]
         try omega)

/-- Claim C10 counterexample: `record_error` guards the increment with
Python truthiness (`if task_id:`), so a non-null but empty task id does
not increment `failed_tasks` — the claim's "every call with a non-null
taskId increments it by exactly 1" fails at `task_id = ""`. -/
theorem record_error_empty_taskid_counterexample :
    some "" ≠ (none : Option String) ∧
    record_error initStats (some "") = initStats ∧
    (record_error initStats (some "")).failed_tasks = 0 := by
  refine ⟨by simp, ?_, ?_⟩ <;> decide

/-- Claim C10 (amended): every `record_error` call with a truthy
(non-null, non-empty) task id increments `failed_tasks` by exactly 1,
even when the failure is retried; hence a task that fails `es.length ≤ 3`
times retryably and then succeeds ends with status completed (not
failed) while `failed_tasks` has grown by `es.length` and
`completed_tasks` by 1 — `failed_tasks` counts failures, not
finally-failed tasks. -/
theorem failed_tasks_counts_failures (tid : String)
    (htid : tid.isEmpty = false) (s : TaskStats) (es : List String)
    (rest : List AttemptOutcome) (hlen : es.length ≤ 3)
    (hall : ∀ e ∈ es, should_retry_error e = true) :
    (record_error s (some tid)).failed_tasks = s.failed_tasks + 1 ∧
    (process_image_task tid freshTask s
        (es.map AttemptOutcome.failure ++ AttemptOutcome.success :: rest)).task.status
        = TaskStatus.completed ∧
    (process_image_task tid freshTask s
        (es.map AttemptOutcome.failure ++ AttemptOutcome.success :: rest)).stats.failed_tasks
        = s.failed_tasks + es.length ∧
    (process_image_task tid freshTask s
        (es.map AttemptOutcome.failure ++ AttemptOutcome.success :: rest)).stats.completed_tasks
        = s.completed_tasks + 1 := by
  have hst : truthy (some tid) = true := by simp [truthy, htid]
  refine ⟨by simp [record_error, hst], ?_⟩
  exact run_retries_then_success tid htid es freshTask s rest
    (by simpa [freshTask] using hlen) hall

/-- Witness for C10's amended claim: two retryable failures then success,
starting from fresh statistics. -/
theorem failed_tasks_counts_failures_witness :
    (process_image_task "task-1" freshTask initStats
        (AttemptOutcome.failure "gpu oom" :: AttemptOutcome.failure "timeout"
          :: AttemptOutcome.success :: [])).stats.failed_tasks
      = initStats.failed_tasks + 2 :=
  (failed_tasks_counts_failures "task-1" (by decide) initStats
    ["gpu oom", "timeout"] [] (by decide)
    (by intro e he; fin_cases he <;> decide)).2.2.1

end DepthFlow
